import Mathlib

/-
Shallow embedding of the onboarding stepper in
src/vs/workbench/contrib/void/browser/react/src/void-onboarding/VoidOnboarding.tsx.

The component keeps two pieces of navigation state, `stepperType` (the flow:
signIn or signUp) and `pageIndex` (an integer), and renders the screen found
by looking `pageIndex` up in the flow's object-literal table
(`signInStepperFlow` / `signUpStepperFlow`), both of which spread the shared
`stepperFlowStartingPoint` table holding entries 0 and 1.  Per-screen form
logic (login, sign-up registration, create-password, reset-password, OTP
confirmation) is modelled as explicit state transformers, and the asynchronous
simulated submission (a 1.5 s timer) as a small event machine.
-/

namespace VoidOnboarding

/-- The two stepper flows: `type StepperFlowType = 'signIn' | 'signUp'`. -/
inductive StepperFlowType
  | signIn
  | signUp
  deriving DecidableEq, Repr

/-- The distinct screen bodies that appear in the two stepper tables.
Constructors that wrap a form carry the page index its `onSuccess`
continuation navigates to (`onSuccess={() => setPageIndex(k)}`), and the OTP
screen also carries the `email` prop it is given. -/
inductive PageContent
  | welcome
  | login
  | resetPassword (onSuccessTarget : Int)
  | otpConfirm (email : String) (onSuccessTarget : Int)
  | createPassword (onSuccessTarget : Int)
  | signUpForm (onSuccessTarget : Int)
  | settingsImport
  deriving DecidableEq, Repr

/-- Whether a screen body is the OTP confirmation screen. -/
def PageContent.isOtp : PageContent → Bool
  | .otpConfirm _ _ => true
  | _ => false

/-- A screen definition: the `title` passed to `OnboardingFormPageShell`
(`none` for the plain `OnboardingPageShell` screens) plus the body. -/
structure ScreenDef where
  title : Option String
  content : PageContent
  deriving DecidableEq, Repr

/-- `stepperFlowStartingPoint`: the table shared by both flows, holding the
welcome screen at 0 and the `LoginPage` ("Sign in") screen at 1. -/
def stepperFlowStartingPoint (i : Int) : Option ScreenDef :=
  if i = 0 then some ⟨none, .welcome⟩
  else if i = 1 then some ⟨some "Sign in", .login⟩
  else none

/-- `signInStepperFlow`: spreads the starting-point table and adds
2 (`ResetPasswordPage`, onSuccess → 3), 3 (`OTPPasswordPage`, onSuccess → 4),
4 (`CreatePasswordPage`, onSuccess → 6), 5 (`OTPPasswordPage`, onSuccess → 6)
and 6 (the terminal "Settings and Themes" screen, `renderLastStep`). -/
def signInStepperFlow (i : Int) : Option ScreenDef :=
  if i = 2 then some ⟨some "Enter your email", .resetPassword 3⟩
  else if i = 3 then some ⟨some "Check your email", .otpConfirm "test@proton.com" 4⟩
  else if i = 4 then some ⟨some "Create new password", .createPassword 6⟩
  else if i = 5 then some ⟨some "Check your email", .otpConfirm "test_verify_code@proton.com" 6⟩
  else if i = 6 then some ⟨none, .settingsImport⟩
  else stepperFlowStartingPoint i

/-- `signUpStepperFlow`: spreads the starting-point table and adds
2 (`SignUpPage`, onSuccess → 3), 3 (`CreatePasswordPage`, onSuccess → 4) and
4 (the terminal "Settings and Themes" screen, `renderLastStep`). -/
def signUpStepperFlow (i : Int) : Option ScreenDef :=
  if i = 2 then some ⟨some "Sign up", .signUpForm 3⟩
  else if i = 3 then some ⟨some "Create password", .createPassword 4⟩
  else if i = 4 then some ⟨none, .settingsImport⟩
  else stepperFlowStartingPoint i

/-- The navigation state owned by `VoidOnboardingContent`:
`stepperType` and `pageIndex`. -/
structure StepperState where
  stepperType : StepperFlowType
  pageIndex : Int
  deriving DecidableEq, Repr

/-- The render expression
`stepperType === 'signIn' ? signInStepperFlow[pageIndex] : signUpStepperFlow[pageIndex]`;
a lookup miss yields `none` (nothing is rendered). -/
def renderScreen (st : StepperState) : Option ScreenDef :=
  match st.stepperType with
  | .signIn => signInStepperFlow st.pageIndex
  | .signUp => signUpStepperFlow st.pageIndex

/-- `setPageType`: sets `stepperType` and runs
`setPageIndex(pageIdx => pageIdx + 1)`. -/
def setPageType (t : StepperFlowType) (st : StepperState) : StepperState :=
  { stepperType := t, pageIndex := st.pageIndex + 1 }

/-- The `prevButton` updater `setPageIndex(idx => idx - 1)`; no clamping. -/
def prevButtonUpdate (i : Int) : Int := i - 1

/-- `LoginPage.submitForm` after its simulated request resolves: it reads the
email and password fields (unused), then runs `setPageType('signIn')`
followed by `setPageIndex(6)`. -/
def loginSubmitForm (email password : String) (st : StepperState) : StepperState :=
  let st1 := setPageType .signIn st
  { st1 with pageIndex := 6 }

/-- The effect watching `voidSettingsState.globalSettings.isOnboardingComplete`:
`if (!isOnboardingComplete) setPageIndex(0)`; otherwise the page index is
left alone. -/
def onboardingResetEffect (isOnboardingComplete : Bool) (pageIndex : Int) : Int :=
  if !isOnboardingComplete then 0 else pageIndex

/-- Observable outcome of one call to `CreatePasswordPage.submitForm`:
the final inline `error` string, whether `setIsSubmitting(true)` was reached,
and how many times `onSuccess` was invoked. -/
structure CreatePasswordRun where
  error : String
  submittingRaised : Bool
  onSuccessCount : Nat
  deriving DecidableEq, Repr

/-- `CreatePasswordPage.submitForm`: clears the error, reads `password` and
`confirmPassword`, and on mismatch sets the inline error and returns before
`setIsSubmitting(true)`; otherwise it raises the submitting flag, waits the
simulated delay, and invokes `onSuccess` once.  The stepper state is only
touched through the injected `onSuccess` continuation. -/
def createPasswordSubmit (password confirmPassword : String)
    (onSuccess : StepperState → StepperState) (st : StepperState) :
    StepperState × CreatePasswordRun :=
  if password ≠ confirmPassword then
    (st, { error := "Passwords do not match", submittingRaised := false, onSuccessCount := 0 })
  else
    (onSuccess st, { error := "", submittingRaised := true, onSuccessCount := 1 })

/-- The body of the `OTPPasswordPage` effect on `[otp]`:
`if (otp.length === 6) onSuccess()`. -/
def otpEffectFires (otp : String) : Bool := otp.length == 6

/-- One keystroke into the `OTPInput` (`maxLength={6}`): a character is
appended while the value is shorter than 6 and ignored at the cap. -/
def otpInputChange (cur : String) (c : Char) : String :=
  if cur.length < 6 then cur.push c else cur

/-- Number of `onSuccess` invocations over a keystroke sequence: the effect
re-runs when `otp` changes, and fires when the new value has length 6. -/
def otpRun : String → List Char → Nat
  | _, [] => 0
  | cur, c :: cs =>
    let nxt := otpInputChange cur c
    (if nxt ≠ cur ∧ nxt.length = 6 then 1 else 0) + otpRun nxt cs

/-- The fixed simulated request delay:
`await new Promise((resolve) => setTimeout(resolve, 1500))`. -/
def simulatedRequestDelayMs : Nat := 1500

/-- State of a form screen with a submit button: the `isSubmitting` flag,
the number of in-flight simulated requests, and the number of completed
`onSuccess` invocations. -/
structure SubmitMachine where
  isSubmitting : Bool
  pending : Nat
  successCount : Nat
  deriving DecidableEq, Repr

/-- Events on a form screen: a click on the submit button (which
`SubmitFormButton` renders without a `disabled` attribute, so every click
submits), and the completion of one simulated request timer. -/
inductive SubmitEvent
  | click
  | timerFire
  deriving DecidableEq, Repr

/-- One event step of `submitForm`: a click runs `setIsSubmitting(true)` and
starts a 1.5 s timer; a timer completion invokes `onSuccess` once and runs
`setIsSubmitting(false)`. -/
def submitStep (m : SubmitMachine) : SubmitEvent → SubmitMachine
  | .click => { m with isSubmitting := true, pending := m.pending + 1 }
  | .timerFire =>
    if 0 < m.pending then
      { isSubmitting := false, pending := m.pending - 1, successCount := m.successCount + 1 }
    else m

/-- Run a sequence of events from the initial screen state. -/
def submitRun (evs : List SubmitEvent) : SubmitMachine :=
  evs.foldl submitStep { isSubmitting := false, pending := 0, successCount := 0 }

/-- `type WantToUseOption = 'smart' | 'private' | 'cheap' | 'all'` (the
intent category; `private` is spelled `private_` because it is a keyword). -/
inductive WantToUseOption
  | smart
  | private_
  | cheap
  | all
  deriving DecidableEq, Repr

/-- The four per-intent provider-selection slots held by
`VoidOnboardingContent`. -/
structure ProviderSelections where
  selectedIntelligentProvider : String
  selectedPrivateProvider : String
  selectedAffordableProvider : String
  selectedAllProvider : String
  deriving DecidableEq, Repr

/-- `getSelectedProvider`: picks the slot matching the active intent
category. -/
def getSelectedProvider (w : WantToUseOption) (s : ProviderSelections) : String :=
  match w with
  | .smart => s.selectedIntelligentProvider
  | .private_ => s.selectedPrivateProvider
  | .cheap => s.selectedAffordableProvider
  | .all => s.selectedAllProvider

/-- External side effects issued by the component: a write through
`voidSettingsService.setGlobalSetting` and a metrics
`voidMetricsService.capture` event with its two properties. -/
inductive Effect
  | setGlobalSetting (key : String) (value : Bool)
  | capture (eventName : String) (selectedProviderName : String)
      (wantToUseOption : WantToUseOption)
  deriving DecidableEq, Repr

/-- The `onClick` of the terminal screen's `PrimaryActionButton`
("Enter the Evolv"): unconditionally sets the persisted
`isOnboardingComplete` flag to true, then captures a
"Completed Onboarding" event carrying `selectedProviderName`
(the current intent category's slot) and `wantToUseOption`. -/
def completionGateAction (w : WantToUseOption) (sel : ProviderSelections) : List Effect :=
  [ .setGlobalSetting "isOnboardingComplete" true,
    .capture "Completed Onboarding" (getSelectedProvider w sel) w ]

/-- Local state of `AddProvidersPage` relevant to navigation: the page index
it was given and its inline `errorMessage`. -/
structure AddProvidersState where
  pageIndex : Int
  errorMessage : Option String
  deriving DecidableEq, Repr

/-- The auto-dismiss delay of the inline error:
`setTimeout(() => setErrorMessage(null), 5000)`. -/
def errorDismissDelayMs : Nat := 5000

/-- The `NextButton` click handler of `AddProvidersPage`: with
`chatIsDisabled = isFeatureNameDisabled('Chat', settingsState)` (an external
read), an enabled Chat feature advances the page and clears the message,
while a disabled one leaves the page index alone and sets the message. -/
def addProvidersNextClick (chatIsDisabled : Bool) (st : AddProvidersState) :
    AddProvidersState :=
  if !chatIsDisabled then
    { pageIndex := st.pageIndex + 1, errorMessage := none }
  else
    { st with errorMessage := some "Please set up at least one Chat model before moving on." }

/-- The timeout scheduled while `errorMessage` is non-null firing after
`errorDismissDelayMs`: `setErrorMessage(null)`. -/
def errorTimeoutFire (st : AddProvidersState) : AddProvidersState :=
  { st with errorMessage := none }

/-! ## Helper lemmas -/

/-- Once the OTP value is at the 6-character cap, keystrokes are ignored and
the effect never fires again. -/
theorem otpRun_at_cap (cs : List Char) : ∀ cur : String, cur.length = 6 → otpRun cur cs = 0 := by
  induction cs with
  | nil => intro cur _; rfl
  | cons c cs ih =>
    intro cur h
    have hc : otpInputChange cur c = cur := by
      unfold otpInputChange; rw [if_neg (by omega)]
    simp only [otpRun, hc, ih cur h]
    simp

/-- Counting `onSuccess` invocations over a keystroke sequence from a value
below the cap: exactly one invocation when enough characters arrive to reach
length 6, none otherwise. -/
theorem otpRun_typing (cs : List Char) : ∀ cur : String, cur.length < 6 →
    otpRun cur cs = if 6 ≤ cur.length + cs.length then 1 else 0 := by
  induction cs with
  | nil =>
    intro cur h
    simp only [otpRun, List.length_nil, Nat.add_zero]
    rw [if_neg (by omega)]
  | cons c cs ih =>
    intro cur h
    have hc : otpInputChange cur c = cur.push c := by
      unfold otpInputChange; rw [if_pos h]
    have hlen : (cur.push c).length = cur.length + 1 := String.length_push ..
    have hne : cur.push c ≠ cur := by
      intro hEq
      have := congrArg String.length hEq
      omega
    by_cases h6 : cur.length + 1 = 6
    · simp only [otpRun, hc]
      rw [if_pos ⟨hne, by omega⟩, otpRun_at_cap cs (cur.push c) (by omega)]
      rw [if_pos (show 6 ≤ cur.length + (c :: cs).length by simp; omega)]
    · simp only [otpRun, hc]
      rw [if_neg (fun hcond => h6 (by omega))]
      rw [ih (cur.push c) (by omega), hlen]
      simp only [List.length_cons, Nat.zero_add]
      rw [show cur.length + 1 + cs.length = cur.length + (cs.length + 1) from by omega]

/-! ## Claim theorems -/

/-- Claim C1, counterexample: clicking "sign up" while in state
Active(signIn, 1) does not yield Active(signUp, 1) — `setPageType`
increments the page index instead of preserving it. -/
theorem c1_flow_switch_not_preserving :
    setPageType .signUp ⟨.signIn, 1⟩ ≠ (⟨.signUp, 1⟩ : StepperState) := by decide

/-- Claim C1 (amended): `setPageType` sets the flow type and increments
pageIndex by one — it does not preserve it.  Clicking "sign up" while in
state Active(signIn, 1) yields Active(signUp, 2), and the registry lookup
then resolves against the signUp table, giving the registration screen. -/
theorem c1_flow_switch_increments (t : StepperFlowType) (st : StepperState) :
    setPageType t st = ⟨t, st.pageIndex + 1⟩ ∧
    setPageType .signUp ⟨.signIn, 1⟩ = (⟨.signUp, 2⟩ : StepperState) ∧
    renderScreen (setPageType .signUp ⟨.signIn, 1⟩) =
      some ⟨some "Sign up", .signUpForm 3⟩ :=
  ⟨rfl, by decide, by decide⟩

/-- Claim C2, counterexample: in the signUp table the entry after password
creation (index 4) is the terminal settings-import screen, not an OTP
confirmation screen. -/
theorem c2_signup_table_no_otp_at_4 :
    signUpStepperFlow 4 = some ⟨none, .settingsImport⟩ ∧
    (signUpStepperFlow 4).map (fun s => s.content.isOtp) = some false := by decide

/-- Claim C2 (amended): both tables share entries 0 (welcome) and
1 (credential entry) and then diverge; the signUp table continues with
registration details (2), then password creation (3), then the terminal
settings-import screen (4) — it contains no OTP confirmation screen at any
index.  The terminal screen is reachable from either flow (signIn at 6,
signUp at 4). -/
theorem c2_tables_structure (i : Int) :
    signInStepperFlow 0 = some ⟨none, .welcome⟩ ∧
    signUpStepperFlow 0 = some ⟨none, .welcome⟩ ∧
    signInStepperFlow 1 = some ⟨some "Sign in", .login⟩ ∧
    signUpStepperFlow 1 = some ⟨some "Sign in", .login⟩ ∧
    signUpStepperFlow 2 = some ⟨some "Sign up", .signUpForm 3⟩ ∧
    signUpStepperFlow 3 = some ⟨some "Create password", .createPassword 4⟩ ∧
    signUpStepperFlow 4 = some ⟨none, .settingsImport⟩ ∧
    signInStepperFlow 6 = some ⟨none, .settingsImport⟩ ∧
    (signUpStepperFlow i).map (fun s => s.content.isOtp) ≠ some true := by
  refine ⟨by decide, by decide, by decide, by decide, by decide, by decide, by decide, by decide, ?_⟩
  unfold signUpStepperFlow stepperFlowStartingPoint
  split_ifs <;> simp [PageContent.isOtp]

/-- Claim C3: whenever the password and confirm-password fields differ,
`CreatePasswordPage.submitForm` never invokes `onSuccess`, leaves the
stepper state (hence pageIndex) unchanged, sets the inline error, and
returns before the submitting flag is raised. -/
theorem c3_password_mismatch_blocks (password confirmPassword : String)
    (onSuccess : StepperState → StepperState) (st : StepperState)
    (h : password ≠ confirmPassword) :
    (createPasswordSubmit password confirmPassword onSuccess st).1 = st ∧
    (createPasswordSubmit password confirmPassword onSuccess st).2 =
      ⟨"Passwords do not match", false, 0⟩ := by
  simp [createPasswordSubmit, h]

/-- Claim C3, witness: concrete mismatched submission on the signUp
create-password screen. -/
theorem c3_password_mismatch_blocks_witness :
    (("aaaaaaaa" : String) ≠ "bbbbbbbb") ∧
    ((createPasswordSubmit "aaaaaaaa" "bbbbbbbb" id ⟨.signUp, 3⟩).1 =
        (⟨.signUp, 3⟩ : StepperState) ∧
      (createPasswordSubmit "aaaaaaaa" "bbbbbbbb" id ⟨.signUp, 3⟩).2 =
        ⟨"Passwords do not match", false, 0⟩) :=
  ⟨by decide, c3_password_mismatch_blocks "aaaaaaaa" "bbbbbbbb" id ⟨.signUp, 3⟩ (by decide)⟩

/-- Claim C4: the OTP effect fires exactly when the entered value has length
6 (so no value of length below 6 ever invokes the continuation), and over
any keystroke sequence starting from the empty value the continuation is
invoked exactly once as soon as 6 characters have been entered (and never
again, since the input is capped at 6), and zero times for fewer. -/
theorem c4_otp_exactly_once (s : String) (cs : List Char) :
    (otpEffectFires s = true ↔ s.length = 6) ∧
    otpRun "" cs = if 6 ≤ cs.length then 1 else 0 := by
  constructor
  · simp [otpEffectFires]
  · have h0 : ("" : String).length = 0 := rfl
    rw [otpRun_typing cs "" (by omega), h0, Nat.zero_add]

/-- Claim C5, counterexample: the submit button is rendered without a
`disabled` attribute, so a second click while `isSubmitting` is true starts
a second overlapping submission, and a double-click yields two `onSuccess`
invocations rather than exactly one. -/
theorem c5_double_click_double_submit :
    (submitRun [.click]).isSubmitting = true ∧
    (submitRun [.click, .click]).pending = 2 ∧
    (submitRun [.click, .click, .timerFire, .timerFire]).successCount = 2 := by decide

/-- Claim C5 (amended): a well-formed submission sets the submitting flag
true immediately and starts one fixed 1.5 s simulated request; when that
request completes, `onSuccess` is invoked exactly once and the flag resets
to false.  Resubmission is not disabled while the flag is true (only the
button label is swapped for a spinner), so a double-click produces two
submissions and two `onSuccess` invocations. -/
theorem c5_submit_lifecycle (m : SubmitMachine) :
    simulatedRequestDelayMs = 1500 ∧
    (submitStep m .click).isSubmitting = true ∧
    (submitStep m .click).pending = m.pending + 1 ∧
    (submitStep m .click).successCount = m.successCount ∧
    submitRun [.click, .timerFire] = ⟨false, 0, 1⟩ ∧
    (submitRun [.click, .click, .timerFire, .timerFire]).successCount = 2 :=
  ⟨rfl, rfl, rfl, rfl, by decide, by decide⟩

/-- Claim C6: firing the CompletionGate action unconditionally issues both
side effects — the persisted onboarding-complete flag is set to true via
the settings service, and a completion analytics event is captured carrying
the currently selected provider name (the slot of the active intent
category) and the intent category itself. -/
theorem c6_completion_gate_effects (w : WantToUseOption) (sel : ProviderSelections) :
    Effect.setGlobalSetting "isOnboardingComplete" true ∈ completionGateAction w sel ∧
    Effect.capture "Completed Onboarding" (getSelectedProvider w sel) w ∈
      completionGateAction w sel ∧
    getSelectedProvider .smart sel = sel.selectedIntelligentProvider ∧
    getSelectedProvider .private_ sel = sel.selectedPrivateProvider ∧
    getSelectedProvider .cheap sel = sel.selectedAffordableProvider ∧
    getSelectedProvider .all sel = sel.selectedAllProvider := by
  refine ⟨?_, ?_, rfl, rfl, rfl, rfl⟩ <;> simp [completionGateAction]

/-- Claim C7: on the provider-setup screen, clicking Next with the Chat
feature disabled leaves pageIndex unchanged and sets the transient inline
error, which the 5-second timeout then dismisses; clicking Next with a Chat
model configured advances pageIndex by one and clears the message. -/
theorem c7_chat_gate_next (st : AddProvidersState) :
    (addProvidersNextClick true st).pageIndex = st.pageIndex ∧
    (addProvidersNextClick true st).errorMessage =
      some "Please set up at least one Chat model before moving on." ∧
    (errorTimeoutFire (addProvidersNextClick true st)).errorMessage = none ∧
    errorDismissDelayMs = 5000 ∧
    (addProvidersNextClick false st).pageIndex = st.pageIndex + 1 ∧
    (addProvidersNextClick false st).errorMessage = none := by
  simp [addProvidersNextClick, errorTimeoutFire, errorDismissDelayMs]

/-- Claim C8: a page index outside the defined keys of the active table
looks up to `none` — nothing to render rather than an error — and the
Back-button update subtracts one with no clamping, so navigation can reach
indices outside the defined keys (retreating from 0 lands on -1, where both
tables render nothing). -/
theorem c8_lookup_miss_and_retreat (i : Int) :
    (signInStepperFlow i = none ↔ ¬(0 ≤ i ∧ i ≤ 6)) ∧
    (signUpStepperFlow i = none ↔ ¬(0 ≤ i ∧ i ≤ 4)) ∧
    prevButtonUpdate i = i - 1 ∧
    prevButtonUpdate 0 = -1 ∧
    signInStepperFlow (prevButtonUpdate 0) = none ∧
    signUpStepperFlow (prevButtonUpdate 0) = none := by
  refine ⟨?_, ?_, rfl, by decide, by decide, by decide⟩
  · unfold signInStepperFlow stepperFlowStartingPoint
    split_ifs <;> (simp_all; try omega)
  · unfold signUpStepperFlow stepperFlowStartingPoint
    split_ifs <;> (simp_all; try omega)

/-- Claim C9: the effect watching the externally owned onboarding-completion
flag resets pageIndex to 0 whenever the flag is false, and leaves it alone
when the flag is true. -/
theorem c9_flag_reset_resets_page (i : Int) :
    onboardingResetEffect false i = 0 ∧ onboardingResetEffect true i = i :=
  ⟨rfl, rfl⟩

/-- Claim C10: a successful submission of the sign-in credential form, for
every entered email and password and from every starting state, sets the
flow type to signIn and jumps pageIndex directly to 6, where the signIn
table holds the terminal settings-import screen. -/
theorem c10_login_jumps_to_terminal (email password : String) (st : StepperState) :
    loginSubmitForm email password st = (⟨.signIn, 6⟩ : StepperState) ∧
    renderScreen ⟨.signIn, 6⟩ = some ⟨none, .settingsImport⟩ :=
  ⟨rfl, by decide⟩

end VoidOnboarding
